import Mathlib

/-!
Verification of the podcast-generation action in src/agent/src/clAction.ts.

The action is a single sequential pipeline: validate the inbound text,
check six environment values, then call seven external adapter operations
in order, emitting a status notification before each awaited step and one
of two terminal messages.  External collaborators (blockchain, audio,
IPFS, language model) are modelled by an environment of Except-valued
oracles; the handler is a pure function of that environment which records
the notifications emitted, the adapter calls made (with their arguments),
the log lines written, and the final outcome.
-/

namespace BuffiCast

/-- Opaque random parameters returned by the VRF oracle.  The pipeline never
inspects them (they flow unmodified into the prompt and into the metadata
description), so a value is modelled by its JSON serialization. -/
structure RandomParams where
  raw : String
deriving DecidableEq

/-- JSON.stringify applied to the opaque random parameters. -/
def stringifyRandomParams (rp : RandomParams) : String := rp.raw

/-- interfaces/Podcast.ts PodcastPrompt, as built in generatePodcastContent. -/
structure PodcastPrompt where
  instruction : String
  topic : String
  daily_messages : List String
  random_parameters : RandomParams
  duration : String
  language : String
deriving DecidableEq

/-- interfaces/Podcast.ts PodcastMetadata, as built in the handler. -/
structure PodcastMetadata where
  name : String
  description : String
  image : String
  external_url : String
deriving DecidableEq

/-- Result of blockchainService.callStoryProtocol: transaction hash and IP id. -/
structure MintResult where
  txHash : String
  ipId : String
deriving DecidableEq

/-- One content block of the language-model response: the source filters on
block.type being the tag text and keeps block.text; every other tag is
discarded. -/
inductive ContentBlock where
  | text (s : String)
  | other (kind : String)
deriving DecidableEq

/-- Session-scoped state: validate stores the extracted batch into the field
daily_messages of the framework state object. -/
structure SessionState where
  daily_messages : Option (List String)
deriving DecidableEq

/-- The six environment values read by the handler (process.env lookups give
none when the variable is unset). -/
structure Config where
  privateKey : Option String
  contractAddress : Option String
  contractAddressFlow : Option String
  apiKey : Option String
  xiApiKey : Option String
  pinataJwt : Option String
deriving DecidableEq

/-- JavaScript truthiness test used by the guard on line 43: an env value is
falsy when it is undefined or the empty string. -/
def envFalsy : Option String → Bool
  | none => true
  | some s => s.isEmpty

/-- The guard condition of line 43 of clAction.ts. -/
def missingConfig (cfg : Config) : Bool :=
  envFalsy cfg.privateKey || envFalsy cfg.contractAddress ||
  envFalsy cfg.contractAddressFlow || envFalsy cfg.apiKey ||
  envFalsy cfg.xiApiKey || envFalsy cfg.pinataJwt

/-- Splits a character list at every double-quote character; the quote
characters themselves are dropped, exactly as String.split would. -/
def splitOnQuote : List Char → List (List Char)
  | [] => [[]]
  | c :: t =>
    let r := splitOnQuote t
    if c = '\"' then [] :: r
    else
      match r with
      | [] => [[c]]
      | h :: rest => (c :: h) :: rest

/-- Keeps the chunks that lie between a complete pair of quote characters:
after splitting, the fragments are the chunks at odd positions, and the
last chunk of the split witnesses the closing quote, so a trailing
unterminated fragment is dropped. -/
def pairedChunks : List (List Char) → List (List Char)
  | _before :: frag :: rest =>
    if rest.isEmpty then [] else frag :: pairedChunks rest
  | _ => []

/-- Modelled from the spec: extractMessages is imported from
src/agent/src/utils/utils.ts, which is not among the sources.  Per the spec
it extracts the substrings delimited by quotation-mark pairs, in order of
appearance, and yields a sentinel (none) when no complete pair exists. -/
def extractMessages (text : String) : Option (List String) :=
  let frags := (pairedChunks (splitOnQuote text.data)).map (fun l => String.mk l)
  if frags.isEmpty then none else some frags

/-- The validate step of the action (lines 21 to 30 of clAction.ts): extract
the quoted messages; fail when there are none; otherwise, when a state
object is present, store the batch in it and succeed; with no state object,
fail.  The returned pair is (validation result, state after the call). -/
def validate (text : String) (state : Option SessionState) :
    Bool × Option SessionState :=
  match extractMessages text with
  | none => (false, state)
  | some msgs =>
    match state with
    | some st => (true, some { st with daily_messages := some msgs })
    | none => (false, state)

/-- Behaviour of the external collaborators during one run: each adapter
operation either returns a value or raises.  Service constructors may raise
as well (they run inside the try block). -/
structure Env where
  newBlockchainService : Except String Unit
  newAudioService : Except String Unit
  newIPFSService : Except String Unit
  requestRandomParameters : Except String RandomParams
  messagesCreate : PodcastPrompt → Except String (List ContentBlock)
  generateAudio : String → Except String String
  uploadAudioFile : String → Except String String
  uploadMetadata : PodcastMetadata → Except String String
  updateTokenURI : String → Except String Unit
  callStoryProtocol : String → String → Except String MintResult

/-- Notification strings of clAction.ts, verbatim. -/
def callbackRequiredMsg : String := "Callback is required"

def missingEnvMsg : String :=
  "⚠️ Missing environment variables. Please check the configuration."

def vrfMsg : String := "🎲 Requesting random parameters from Chainlink VRF ..."

def generatingMsg : String := "✍️ Generating podcast content..."

def speechMsg : String := "🎙️ Converting text to speech..."

def ipfsMsg : String := "📤 Uploading to IPFS..."

def updateMsg : String := "🔄 Updating NFT metadata for Tokenized Podcast ..."

def mintMsg : String := "🔗 Minting NFT in Story ..."

def storyMsg (resp : MintResult) : String :=
  "✨ Podcast secured on story protocol 🎉 Hash: " ++ resp.txHash ++
    " - Ip Id : " ++ resp.ipId

def openSeaMsg : String :=
  "✨ Podcast generated and minted successfully! Check OpenSea to view your NFT 🎉: https://testnets.opensea.io/collection/podcast-chapter-1"

def failureMsg : String := "❌ An error occurred while generating the podcast."

/-- The catch block logs the error prefixed by this context string. -/
def errorLogOf (e : String) : String := "Podcast Generation Error: " ++ e

/-- Fallback batch substituted on line 68 when extraction yields nothing. -/
def defaultMessages : List String := [ "Awesome messages!" ]

/-- Fixed instruction string of the prompt (line 138 of clAction.ts). -/
def promptInstruction : String :=
  "Generate a podcast script based on the day\u0027s messages. Create natural speech without formatting."

/-- Prompt construction of generatePodcastContent (lines 137 to 144). -/
def buildPodcastPrompt (messages : List String) (randomParams : RandomParams) :
    PodcastPrompt :=
  { instruction := promptInstruction
    topic := "Ethereum Denver 2025 daily podcast"
    daily_messages := messages
    random_parameters := randomParams
    duration := "20 Seconds"
    language := "English" }

/-- Projection used by the response filter: the text of a text-tagged block. -/
def textOfBlock : ContentBlock → Option String
  | .text s => some s
  | .other _ => none

/-- Lines 152 to 155: keep the text-tagged blocks, take their text, join with
a newline.  filter followed by the cast-and-map of the source is exactly a
filterMap over the tagged union. -/
def extractScript (content : List ContentBlock) : String :=
  String.intercalate "\n" (content.filterMap textOfBlock)

/-- The function generatePodcastContent (lines 135 to 156): build the prompt,
send it to the language model, extract the script from the response. -/
def generatePodcastContent (env : Env) (messages : List String)
    (randomParams : RandomParams) : Except String String :=
  match env.messagesCreate (buildPodcastPrompt messages randomParams) with
  | .error e => .error e
  | .ok content => .ok (extractScript content)

/-- Metadata construction of lines 81 to 86. -/
def mkMetadata (randomParams : RandomParams) (audioHash : String) :
    PodcastMetadata :=
  { name := "BuffiCast Podcast"
    description :=
      "Podcast generated by BuffiCast with parameters: " ++
        stringifyRandomParams randomParams
    image := "https://ipfs.io/ipfs/bafkreifqzkq7tzppc22fa2f52sg2cruvomne2tp34yhdnx3ub2xw24b52m"
    external_url := "https://ipfs.io/ipfs/" ++ audioHash }

/-- Record of one adapter invocation, with the argument it received. -/
inductive Call where
  | newBlockchainService
  | newAudioService
  | newIPFSService
  | requestRandomParameters
  | messagesCreate (prompt : PodcastPrompt)
  | generateAudio (script : String)
  | uploadAudioFile (path : String)
  | uploadMetadata (metadata : PodcastMetadata)
  | updateTokenURI (uri : String)
  | callStoryProtocol (audioHash metadataHash : String)
deriving DecidableEq

def exceptOk {ε α : Type} : Except ε α → Bool
  | .ok _ => true
  | .error _ => false

/-- Whether the environment answers a given recorded call without raising. -/
def callOk (env : Env) : Call → Bool
  | .newBlockchainService => exceptOk env.newBlockchainService
  | .newAudioService => exceptOk env.newAudioService
  | .newIPFSService => exceptOk env.newIPFSService
  | .requestRandomParameters => exceptOk env.requestRandomParameters
  | .messagesCreate prompt => exceptOk (env.messagesCreate prompt)
  | .generateAudio script => exceptOk (env.generateAudio script)
  | .uploadAudioFile path => exceptOk (env.uploadAudioFile path)
  | .uploadMetadata metadata => exceptOk (env.uploadMetadata metadata)
  | .updateTokenURI uri => exceptOk (env.updateTokenURI uri)
  | .callStoryProtocol a m => exceptOk (env.callStoryProtocol a m)

/-- Storage and blockchain operations that follow speech synthesis (the two
upload operations and the two chain operations). -/
def storageOrChainCall : Call → Bool
  | .uploadAudioFile _ => true
  | .uploadMetadata _ => true
  | .updateTokenURI _ => true
  | .callStoryProtocol _ _ => true
  | _ => false

/-- Trace of the try block: notifications emitted, calls made in order, and
either success or the first error raised. -/
structure TryOut where
  notifs : List String
  calls : List Call
  result : Except String Unit

/-- The try block of the handler (lines 48 to 102), step by step in source
order.  Every notification precedes the awaited call it announces; a raised
error aborts the block with the trace accumulated so far. -/
def tryBody (env : Env) (pmsgs : List String) : TryOut :=
  match env.newBlockchainService with
  | .error e => ⟨[], [ .newBlockchainService ], .error e⟩
  | .ok _ =>
  match env.newAudioService with
  | .error e => ⟨[], [ .newBlockchainService, .newAudioService ], .error e⟩
  | .ok _ =>
  match env.newIPFSService with
  | .error e =>
    ⟨[], [ .newBlockchainService, .newAudioService, .newIPFSService ], .error e⟩
  | .ok _ =>
  match env.requestRandomParameters with
  | .error e =>
    ⟨[ vrfMsg ],
     [ .newBlockchainService, .newAudioService, .newIPFSService,
       .requestRandomParameters ], .error e⟩
  | .ok randomParams =>
  match generatePodcastContent env pmsgs randomParams with
  | .error e =>
    ⟨[ vrfMsg, generatingMsg ],
     [ .newBlockchainService, .newAudioService, .newIPFSService,
       .requestRandomParameters,
       .messagesCreate (buildPodcastPrompt pmsgs randomParams) ], .error e⟩
  | .ok script =>
  match env.generateAudio script with
  | .error e =>
    ⟨[ vrfMsg, generatingMsg, speechMsg ],
     [ .newBlockchainService, .newAudioService, .newIPFSService,
       .requestRandomParameters,
       .messagesCreate (buildPodcastPrompt pmsgs randomParams),
       .generateAudio script ], .error e⟩
  | .ok audioPath =>
  match env.uploadAudioFile audioPath with
  | .error e =>
    ⟨[ vrfMsg, generatingMsg, speechMsg, ipfsMsg ],
     [ .newBlockchainService, .newAudioService, .newIPFSService,
       .requestRandomParameters,
       .messagesCreate (buildPodcastPrompt pmsgs randomParams),
       .generateAudio script, .uploadAudioFile audioPath ], .error e⟩
  | .ok audioHash =>
  match env.uploadMetadata (mkMetadata randomParams audioHash) with
  | .error e =>
    ⟨[ vrfMsg, generatingMsg, speechMsg, ipfsMsg ],
     [ .newBlockchainService, .newAudioService, .newIPFSService,
       .requestRandomParameters,
       .messagesCreate (buildPodcastPrompt pmsgs randomParams),
       .generateAudio script, .uploadAudioFile audioPath,
       .uploadMetadata (mkMetadata randomParams audioHash) ], .error e⟩
  | .ok metadataHash =>
  match env.updateTokenURI ("https://ipfs.io/ipfs/" ++ metadataHash) with
  | .error e =>
    ⟨[ vrfMsg, generatingMsg, speechMsg, ipfsMsg, updateMsg ],
     [ .newBlockchainService, .newAudioService, .newIPFSService,
       .requestRandomParameters,
       .messagesCreate (buildPodcastPrompt pmsgs randomParams),
       .generateAudio script, .uploadAudioFile audioPath,
       .uploadMetadata (mkMetadata randomParams audioHash),
       .updateTokenURI ("https://ipfs.io/ipfs/" ++ metadataHash) ], .error e⟩
  | .ok _ =>
  match env.callStoryProtocol audioHash metadataHash with
  | .error e =>
    ⟨[ vrfMsg, generatingMsg, speechMsg, ipfsMsg, updateMsg, mintMsg ],
     [ .newBlockchainService, .newAudioService, .newIPFSService,
       .requestRandomParameters,
       .messagesCreate (buildPodcastPrompt pmsgs randomParams),
       .generateAudio script, .uploadAudioFile audioPath,
       .uploadMetadata (mkMetadata randomParams audioHash),
       .updateTokenURI ("https://ipfs.io/ipfs/" ++ metadataHash),
       .callStoryProtocol audioHash metadataHash ], .error e⟩
  | .ok resp =>
    ⟨[ vrfMsg, generatingMsg, speechMsg, ipfsMsg, updateMsg, mintMsg,
       storyMsg resp, openSeaMsg ],
     [ .newBlockchainService, .newAudioService, .newIPFSService,
       .requestRandomParameters,
       .messagesCreate (buildPodcastPrompt pmsgs randomParams),
       .generateAudio script, .uploadAudioFile audioPath,
       .uploadMetadata (mkMetadata randomParams audioHash),
       .updateTokenURI ("https://ipfs.io/ipfs/" ++ metadataHash),
       .callStoryProtocol audioHash metadataHash ], .ok ()⟩

/-- What the handler returned, or the exception it let escape. -/
inductive HandlerOutcome where
  | returned (value : Bool)
  | threw (message : String)
deriving DecidableEq

/-- Observable effects of one handler invocation. -/
structure RunResult where
  notifs : List String
  calls : List Call
  logs : List String
  err : Option String
  outcome : HandlerOutcome
deriving DecidableEq

/-- Lines 102 to 108: a completed try block returns true; a caught error is
logged, one generic failure notification is appended, and false is
returned. -/
def wrapTry (t : TryOut) : RunResult :=
  match t.result with
  | .ok _ => ⟨t.notifs, t.calls, [], none, .returned true⟩
  | .error e =>
    ⟨t.notifs ++ [ failureMsg ], t.calls, [ errorLogOf e ], some e,
      .returned false⟩

/-- Line 68: the batch used for the prompt is re-extracted from the text; a
missing batch is replaced by the default message. -/
def promptMessages (text : String) : List String :=
  match extractMessages text with
  | none => defaultMessages
  | some msgs => msgs

/-- The handler of the action (lines 32 to 109): throw when no callback is
supplied, warn and return false when an environment value is missing,
otherwise run the try block.  The session state argument mirrors the
source parameter and is never consulted. -/
def handler (env : Env) (cfg : Config) (text : String)
    (_state : Option SessionState) (hasCallback : Bool) : RunResult :=
  if hasCallback then
    if missingConfig cfg then
      ⟨[ missingEnvMsg ], [], [], none, .returned false⟩
    else wrapTry (tryBody env (promptMessages text))
  else ⟨[], [], [], none, .threw callbackRequiredMsg⟩

/-- Whether pat occurs at the head of l. -/
def leadsWith : List Char → List Char → Bool
  | _, [] => true
  | [], _ :: _ => false
  | c :: cs, d :: ds => c == d && leadsWith cs ds

/-- Whether pat occurs contiguously somewhere in l. -/
def hasSeg : List Char → List Char → Bool
  | [], pat => leadsWith [] pat
  | c :: t, pat => leadsWith (c :: t) pat || hasSeg t pat

/-- Whether pat occurs as a contiguous substring of s. -/
def containsStr (s pat : String) : Bool := hasSeg s.data pat.data

/-- Independent characterization of the script: the text of the text-tagged
blocks, in response order, every other block discarded. -/
def textsOf : List ContentBlock → List String
  | [] => []
  | .text s :: rest => s :: textsOf rest
  | .other _ :: rest => textsOf rest

/-- Demo random parameters for concrete runs. -/
def rpDemo : RandomParams := ⟨"[7,3]"⟩

/-- Demo environment in which every adapter call succeeds. -/
def envOk : Env :=
  ⟨.ok (), .ok (), .ok (), .ok rpDemo,
   fun _ => .ok [ ContentBlock.text "hello listeners" ],
   fun _ => .ok "podcast.mp3",
   fun _ => .ok "QmAudio",
   fun _ => .ok "QmMeta",
   fun _ => .ok (),
   fun _ _ => .ok ⟨"0xFEEDC0DE", "ip-42"⟩⟩

/-- Demo environment whose language model answers with mixed block kinds. -/
def envMixed : Env :=
  { envOk with
    messagesCreate := fun _ =>
      .ok [ ContentBlock.text "first line", ContentBlock.other "tool_use",
            ContentBlock.text "second line" ] }

/-- Demo environment in which speech synthesis raises. -/
def envAudioFail : Env :=
  { envOk with generateAudio := fun _ => .error "boom" }

/-- Complete configuration for concrete runs. -/
def cfgOk : Config :=
  ⟨some "pk", some "0xC0", some "0xF1", some "ak", some "xk", some "jwt"⟩

/-- Configuration with the signing key absent. -/
def cfgMissing : Config :=
  ⟨none, some "0xC0", some "0xF1", some "ak", some "xk", some "jwt"⟩

/-- Demo inbound text containing one quoted fragment. -/
def textDemo : String := "make a podcast \"real\""

/-- Demo inbound text with no quoted fragment. -/
def textNoQuotes : String := "no quoted fragments here"

/-- Demo session state holding a batch the handler never reads. -/
def stPlanted : SessionState := ⟨some [ "planted" ]⟩

theorem leadsWith_self (l : List Char) : leadsWith l l = true := by
  induction l with
  | nil => rfl
  | cons c t ih => simp [leadsWith, ih]

theorem leadsWith_append (t b : List Char) : leadsWith (t ++ b) t = true := by
  induction t with
  | nil => cases b <;> rfl
  | cons c t ih => simp [leadsWith, ih]

theorem hasSeg_of_leads (l pat : List Char) (h : leadsWith l pat = true) :
    hasSeg l pat = true := by
  cases l with
  | nil => exact h
  | cons c t => simp [hasSeg, h]

theorem hasSeg_append_left (a l pat : List Char) (h : hasSeg l pat = true) :
    hasSeg (a ++ l) pat = true := by
  induction a with
  | nil => exact h
  | cons c t ih => simp [hasSeg, ih]

theorem hasSeg_mid (a t b : List Char) : hasSeg (a ++ (t ++ b)) t = true :=
  hasSeg_append_left a (t ++ b) t (hasSeg_of_leads _ _ (leadsWith_append t b))

theorem data_append (a b : String) : (a ++ b).data = a.data ++ b.data :=
  String.data_append a b

theorem containsStr_of_parts (a t b : String) :
    containsStr (a ++ t ++ b) t = true := by
  have h : (a ++ t ++ b).data = a.data ++ (t.data ++ b.data) := by
    rw [data_append, data_append, List.append_assoc]
  rw [containsStr, h]
  exact hasSeg_mid a.data t.data b.data

theorem filterMap_textOfBlock_eq (content : List ContentBlock) :
    content.filterMap textOfBlock = textsOf content := by
  induction content with
  | nil => rfl
  | cons b rest ih => cases b <;> simp [textsOf, textOfBlock, ih]

theorem hasSeg_tail (a t : List Char) : hasSeg (a ++ t) t = true :=
  hasSeg_append_left a t t (hasSeg_of_leads t t (leadsWith_self t))

theorem storyMsg_contains_txHash (resp : MintResult) :
    containsStr (storyMsg resp) resp.txHash = true := by
  have hd : (storyMsg resp).data =
      ("✨ Podcast secured on story protocol 🎉 Hash: ").data ++
        (resp.txHash.data ++ ((" - Ip Id : ").data ++ resp.ipId.data)) := by
    simp [storyMsg, data_append]
  rw [containsStr, hd]
  exact hasSeg_mid _ _ _

theorem storyMsg_contains_ipId (resp : MintResult) :
    containsStr (storyMsg resp) resp.ipId = true := by
  have hd : (storyMsg resp).data =
      (("✨ Podcast secured on story protocol 🎉 Hash: ").data ++
        resp.txHash.data ++ (" - Ip Id : ").data) ++ resp.ipId.data := by
    simp [storyMsg, data_append]
  rw [containsStr, hd]
  exact hasSeg_tail _ _

/-- Claim C1 (amended): with every configuration value present and every
adapter call succeeding, the handler emits the six progress notifications of
section 6 in their fixed order, then a success notification that embeds the
MintResult txHash and ipId, then one more fixed success notification (the
OpenSea notice) as the final message, and returns success.  The txHash and
ipId therefore appear in the next-to-last message emitted, not in the final
one. -/
theorem c1_success_run (env : Env) (cfg : Config) (text : String)
    (st : Option SessionState) (rp : RandomParams) (content : List ContentBlock)
    (audioPath audioHash metadataHash : String) (resp : MintResult)
    (hcfg : missingConfig cfg = false)
    (hB : env.newBlockchainService = .ok ())
    (hA : env.newAudioService = .ok ())
    (hI : env.newIPFSService = .ok ())
    (hR : env.requestRandomParameters = .ok rp)
    (hM : env.messagesCreate (buildPodcastPrompt (promptMessages text) rp) =
      .ok content)
    (hAu : env.generateAudio (extractScript content) = .ok audioPath)
    (hUp : env.uploadAudioFile audioPath = .ok audioHash)
    (hMeta : env.uploadMetadata (mkMetadata rp audioHash) = .ok metadataHash)
    (hT : env.updateTokenURI ("https://ipfs.io/ipfs/" ++ metadataHash) = .ok ())
    (hS : env.callStoryProtocol audioHash metadataHash = .ok resp) :
    handler env cfg text st true =
      ⟨[ vrfMsg, generatingMsg, speechMsg, ipfsMsg, updateMsg, mintMsg,
         storyMsg resp, openSeaMsg ],
       [ .newBlockchainService, .newAudioService, .newIPFSService,
         .requestRandomParameters,
         .messagesCreate (buildPodcastPrompt (promptMessages text) rp),
         .generateAudio (extractScript content), .uploadAudioFile audioPath,
         .uploadMetadata (mkMetadata rp audioHash),
         .updateTokenURI ("https://ipfs.io/ipfs/" ++ metadataHash),
         .callStoryProtocol audioHash metadataHash ],
       [], none, HandlerOutcome.returned true⟩ ∧
    containsStr (storyMsg resp) resp.txHash = true ∧
    containsStr (storyMsg resp) resp.ipId = true := by
  refine ⟨?_, storyMsg_contains_txHash resp, storyMsg_contains_ipId resp⟩
  simp [handler, hcfg, tryBody, generatePodcastContent, wrapTry,
    hB, hA, hI, hR, hM, hAu, hUp, hMeta, hT, hS]

theorem c1_success_run_witness :
    missingConfig cfgOk = false ∧
    envOk.newBlockchainService = .ok () ∧
    envOk.newAudioService = .ok () ∧
    envOk.newIPFSService = .ok () ∧
    envOk.requestRandomParameters = .ok rpDemo ∧
    envOk.messagesCreate (buildPodcastPrompt (promptMessages textDemo) rpDemo) =
      .ok [ ContentBlock.text "hello listeners" ] ∧
    envOk.generateAudio (extractScript [ ContentBlock.text "hello listeners" ]) =
      .ok "podcast.mp3" ∧
    envOk.uploadAudioFile "podcast.mp3" = .ok "QmAudio" ∧
    envOk.uploadMetadata (mkMetadata rpDemo "QmAudio") = .ok "QmMeta" ∧
    envOk.updateTokenURI ("https://ipfs.io/ipfs/" ++ "QmMeta") = .ok () ∧
    envOk.callStoryProtocol "QmAudio" "QmMeta" = .ok ⟨"0xFEEDC0DE", "ip-42"⟩ ∧
    (handler envOk cfgOk textDemo none true =
      ⟨[ vrfMsg, generatingMsg, speechMsg, ipfsMsg, updateMsg, mintMsg,
         storyMsg ⟨"0xFEEDC0DE", "ip-42"⟩, openSeaMsg ],
       [ .newBlockchainService, .newAudioService, .newIPFSService,
         .requestRandomParameters,
         .messagesCreate (buildPodcastPrompt (promptMessages textDemo) rpDemo),
         .generateAudio (extractScript [ ContentBlock.text "hello listeners" ]),
         .uploadAudioFile "podcast.mp3",
         .uploadMetadata (mkMetadata rpDemo "QmAudio"),
         .updateTokenURI ("https://ipfs.io/ipfs/" ++ "QmMeta"),
         .callStoryProtocol "QmAudio" "QmMeta" ],
       [], none, HandlerOutcome.returned true⟩ ∧
     containsStr (storyMsg ⟨"0xFEEDC0DE", "ip-42"⟩) (MintResult.txHash ⟨"0xFEEDC0DE", "ip-42"⟩) = true ∧
     containsStr (storyMsg ⟨"0xFEEDC0DE", "ip-42"⟩) (MintResult.ipId ⟨"0xFEEDC0DE", "ip-42"⟩) = true) :=
  ⟨rfl, rfl, rfl, rfl, rfl, rfl, rfl, rfl, rfl, rfl, rfl,
   c1_success_run envOk cfgOk textDemo none rpDemo
     [ ContentBlock.text "hello listeners" ] "podcast.mp3" "QmAudio" "QmMeta"
     ⟨"0xFEEDC0DE", "ip-42"⟩ rfl rfl rfl rfl rfl rfl rfl rfl rfl rfl rfl⟩

/-- Claim C1 counterexample: in a fully successful concrete run the handler
emits eight notifications (section 6 lists seven), and the final message
emitted is the fixed OpenSea notice, which contains neither the txHash nor
the ipId of the MintResult; those are embedded in the next-to-last message
only. -/
theorem c1_counterexample :
    (handler envOk cfgOk textDemo none true).outcome =
      HandlerOutcome.returned true ∧
    (handler envOk cfgOk textDemo none true).notifs.length = 8 ∧
    (handler envOk cfgOk textDemo none true).notifs.getLast? =
      some openSeaMsg ∧
    containsStr openSeaMsg "0xFEEDC0DE" = false ∧
    containsStr openSeaMsg "ip-42" = false ∧
    (handler envOk cfgOk textDemo none true).notifs.get? 6 =
      some (storyMsg ⟨"0xFEEDC0DE", "ip-42"⟩) ∧
    containsStr (storyMsg ⟨"0xFEEDC0DE", "ip-42"⟩) "0xFEEDC0DE" = true := by
  refine ⟨?_, ?_, ?_, ?_, ?_, ?_, ?_⟩ <;> decide

/-- Claim C4: when speech synthesis raises after the language-model call
succeeded, the handler stops there: the two storage operations and the two
blockchain operations that follow are never invoked, exactly one generic
failure notification is emitted (as the last message), the error is logged,
and the handler returns false. -/
theorem c4_audio_failure (env : Env) (cfg : Config) (text : String)
    (st : Option SessionState) (rp : RandomParams) (content : List ContentBlock)
    (e : String)
    (hcfg : missingConfig cfg = false)
    (hB : env.newBlockchainService = .ok ())
    (hA : env.newAudioService = .ok ())
    (hI : env.newIPFSService = .ok ())
    (hR : env.requestRandomParameters = .ok rp)
    (hM : env.messagesCreate (buildPodcastPrompt (promptMessages text) rp) =
      .ok content)
    (hAu : env.generateAudio (extractScript content) = .error e) :
    handler env cfg text st true =
      ⟨[ vrfMsg, generatingMsg, speechMsg, failureMsg ],
       [ .newBlockchainService, .newAudioService, .newIPFSService,
         .requestRandomParameters,
         .messagesCreate (buildPodcastPrompt (promptMessages text) rp),
         .generateAudio (extractScript content) ],
       [ errorLogOf e ], some e, HandlerOutcome.returned false⟩ ∧
    (handler env cfg text st true).notifs.count failureMsg = 1 ∧
    ∀ c ∈ (handler env cfg text st true).calls, storageOrChainCall c = false := by
  have hrun : handler env cfg text st true =
      ⟨[ vrfMsg, generatingMsg, speechMsg, failureMsg ],
       [ .newBlockchainService, .newAudioService, .newIPFSService,
         .requestRandomParameters,
         .messagesCreate (buildPodcastPrompt (promptMessages text) rp),
         .generateAudio (extractScript content) ],
       [ errorLogOf e ], some e, HandlerOutcome.returned false⟩ := by
    simp [handler, hcfg, tryBody, generatePodcastContent, wrapTry,
      hB, hA, hI, hR, hM, hAu]
  refine ⟨hrun, ?_, ?_⟩
  · rw [hrun]
    show List.count failureMsg
      [ vrfMsg, generatingMsg, speechMsg, failureMsg ] = 1
    decide
  · rw [hrun]
    simp [List.forall_mem_cons, storageOrChainCall]

theorem c4_audio_failure_witness :
    missingConfig cfgOk = false ∧
    envAudioFail.newBlockchainService = .ok () ∧
    envAudioFail.newAudioService = .ok () ∧
    envAudioFail.newIPFSService = .ok () ∧
    envAudioFail.requestRandomParameters = .ok rpDemo ∧
    envAudioFail.messagesCreate
      (buildPodcastPrompt (promptMessages textDemo) rpDemo) =
      .ok [ ContentBlock.text "hello listeners" ] ∧
    envAudioFail.generateAudio
      (extractScript [ ContentBlock.text "hello listeners" ]) = .error "boom" ∧
    (handler envAudioFail cfgOk textDemo none true =
      ⟨[ vrfMsg, generatingMsg, speechMsg, failureMsg ],
       [ .newBlockchainService, .newAudioService, .newIPFSService,
         .requestRandomParameters,
         .messagesCreate (buildPodcastPrompt (promptMessages textDemo) rpDemo),
         .generateAudio (extractScript [ ContentBlock.text "hello listeners" ]) ],
       [ errorLogOf "boom" ], some "boom", HandlerOutcome.returned false⟩ ∧
     (handler envAudioFail cfgOk textDemo none true).notifs.count failureMsg = 1 ∧
     ∀ c ∈ (handler envAudioFail cfgOk textDemo none true).calls,
       storageOrChainCall c = false) :=
  ⟨rfl, rfl, rfl, rfl, rfl, rfl, rfl,
   c4_audio_failure envAudioFail cfgOk textDemo none rpDemo
     [ ContentBlock.text "hello listeners" ] "boom" rfl rfl rfl rfl rfl rfl rfl⟩

/-- Claim C2: whenever any step of the try block raises (from service
construction through callStoryProtocol), the handler catches the error once
at the outermost level: it returns false rather than rethrowing, logs the
error with its context line, emits exactly one generic failure notification
(the last message emitted), every adapter call before the last one
succeeded, and the last call made is the failing one, so no further step
runs after it. -/
theorem c2_error_policy (env : Env) (cfg : Config) (text : String)
    (st : Option SessionState) (e : String)
    (hcfg : missingConfig cfg = false)
    (herr : (handler env cfg text st true).err = some e) :
    (handler env cfg text st true).outcome = HandlerOutcome.returned false ∧
    (handler env cfg text st true).logs = [ errorLogOf e ] ∧
    (handler env cfg text st true).notifs.count failureMsg = 1 ∧
    (handler env cfg text st true).notifs.getLast? = some failureMsg ∧
    (∀ c ∈ (handler env cfg text st true).calls.dropLast, callOk env c = true) ∧
    (∃ cf, (handler env cfg text st true).calls.getLast? = some cf ∧
      callOk env cf = false) := by
  have hmain : handler env cfg text st true =
      wrapTry (tryBody env (promptMessages text)) := by
    simp [handler, hcfg]
  rw [hmain] at herr ⊢
  rcases hB : env.newBlockchainService with eB | uB
  · have hrun : wrapTry (tryBody env (promptMessages text)) =
        ⟨[ failureMsg ], [ .newBlockchainService ],
         [ errorLogOf eB ], some eB, .returned false⟩ := by
      simp [tryBody, wrapTry, hB]
    rw [hrun] at herr ⊢
    obtain rfl : eB = e := by simpa using herr
    refine ⟨rfl, rfl, by dsimp only; decide, by dsimp only; decide, ?_, ⟨.newBlockchainService, rfl, ?_⟩⟩
    · show ∀ c ∈ ([] : List Call), callOk env c = true
      simp
    · simp [callOk, exceptOk, hB]
  rcases hA : env.newAudioService with eA | uA
  · have hrun : wrapTry (tryBody env (promptMessages text)) =
        ⟨[ failureMsg ], [ .newBlockchainService, .newAudioService ],
         [ errorLogOf eA ], some eA, .returned false⟩ := by
      simp [tryBody, wrapTry, hB, hA]
    rw [hrun] at herr ⊢
    obtain rfl : eA = e := by simpa using herr
    refine ⟨rfl, rfl, by dsimp only; decide, by dsimp only; decide, ?_, ⟨.newAudioService, rfl, ?_⟩⟩
    · show ∀ c ∈ ([ .newBlockchainService ] : List Call), callOk env c = true
      simp [callOk, exceptOk, hB]
    · simp [callOk, exceptOk, hA]
  rcases hI : env.newIPFSService with eI | uI
  · have hrun : wrapTry (tryBody env (promptMessages text)) =
        ⟨[ failureMsg ],
         [ .newBlockchainService, .newAudioService, .newIPFSService ],
         [ errorLogOf eI ], some eI, .returned false⟩ := by
      simp [tryBody, wrapTry, hB, hA, hI]
    rw [hrun] at herr ⊢
    obtain rfl : eI = e := by simpa using herr
    refine ⟨rfl, rfl, by dsimp only; decide, by dsimp only; decide, ?_, ⟨.newIPFSService, rfl, ?_⟩⟩
    · show ∀ c ∈ ([ .newBlockchainService, .newAudioService ] : List Call),
        callOk env c = true
      simp [List.forall_mem_cons, callOk, exceptOk, hB, hA]
    · simp [callOk, exceptOk, hI]
  rcases hR : env.requestRandomParameters with eR | rp
  · have hrun : wrapTry (tryBody env (promptMessages text)) =
        ⟨[ vrfMsg, failureMsg ],
         [ .newBlockchainService, .newAudioService, .newIPFSService,
           .requestRandomParameters ],
         [ errorLogOf eR ], some eR, .returned false⟩ := by
      simp [tryBody, wrapTry, hB, hA, hI, hR]
    rw [hrun] at herr ⊢
    obtain rfl : eR = e := by simpa using herr
    refine ⟨rfl, rfl, by dsimp only; decide, by dsimp only; decide, ?_,
      ⟨.requestRandomParameters, rfl, ?_⟩⟩
    · show ∀ c ∈ ([ .newBlockchainService, .newAudioService,
        .newIPFSService ] : List Call), callOk env c = true
      simp [List.forall_mem_cons, callOk, exceptOk, hB, hA, hI]
    · simp [callOk, exceptOk, hR]
  rcases hM : env.messagesCreate (buildPodcastPrompt (promptMessages text) rp)
    with eM | content
  · have hrun : wrapTry (tryBody env (promptMessages text)) =
        ⟨[ vrfMsg, generatingMsg, failureMsg ],
         [ .newBlockchainService, .newAudioService, .newIPFSService,
           .requestRandomParameters,
           .messagesCreate (buildPodcastPrompt (promptMessages text) rp) ],
         [ errorLogOf eM ], some eM, .returned false⟩ := by
      simp [tryBody, wrapTry, generatePodcastContent, hB, hA, hI, hR, hM]
    rw [hrun] at herr ⊢
    obtain rfl : eM = e := by simpa using herr
    refine ⟨rfl, rfl, by dsimp only; decide, by dsimp only; decide, ?_,
      ⟨.messagesCreate (buildPodcastPrompt (promptMessages text) rp), rfl, ?_⟩⟩
    · show ∀ c ∈ ([ .newBlockchainService, .newAudioService, .newIPFSService,
        .requestRandomParameters ] : List Call), callOk env c = true
      simp [List.forall_mem_cons, callOk, exceptOk, hB, hA, hI, hR]
    · simp [callOk, exceptOk, hM]
  rcases hAu : env.generateAudio (extractScript content) with eAu | audioPath
  · have hrun : wrapTry (tryBody env (promptMessages text)) =
        ⟨[ vrfMsg, generatingMsg, speechMsg, failureMsg ],
         [ .newBlockchainService, .newAudioService, .newIPFSService,
           .requestRandomParameters,
           .messagesCreate (buildPodcastPrompt (promptMessages text) rp),
           .generateAudio (extractScript content) ],
         [ errorLogOf eAu ], some eAu, .returned false⟩ := by
      simp [tryBody, wrapTry, generatePodcastContent, hB, hA, hI, hR, hM, hAu]
    rw [hrun] at herr ⊢
    obtain rfl : eAu = e := by simpa using herr
    refine ⟨rfl, rfl, by dsimp only; decide, by dsimp only; decide, ?_,
      ⟨.generateAudio (extractScript content), rfl, ?_⟩⟩
    · show ∀ c ∈ ([ .newBlockchainService, .newAudioService, .newIPFSService,
        .requestRandomParameters,
        .messagesCreate (buildPodcastPrompt (promptMessages text) rp) ] :
        List Call), callOk env c = true
      simp [List.forall_mem_cons, callOk, exceptOk, hB, hA, hI, hR, hM]
    · simp [callOk, exceptOk, hAu]
  rcases hUp : env.uploadAudioFile audioPath with eUp | audioHash
  · have hrun : wrapTry (tryBody env (promptMessages text)) =
        ⟨[ vrfMsg, generatingMsg, speechMsg, ipfsMsg, failureMsg ],
         [ .newBlockchainService, .newAudioService, .newIPFSService,
           .requestRandomParameters,
           .messagesCreate (buildPodcastPrompt (promptMessages text) rp),
           .generateAudio (extractScript content), .uploadAudioFile audioPath ],
         [ errorLogOf eUp ], some eUp, .returned false⟩ := by
      simp [tryBody, wrapTry, generatePodcastContent, hB, hA, hI, hR, hM, hAu,
        hUp]
    rw [hrun] at herr ⊢
    obtain rfl : eUp = e := by simpa using herr
    refine ⟨rfl, rfl, by dsimp only; decide, by dsimp only; decide, ?_,
      ⟨.uploadAudioFile audioPath, rfl, ?_⟩⟩
    · show ∀ c ∈ ([ .newBlockchainService, .newAudioService, .newIPFSService,
        .requestRandomParameters,
        .messagesCreate (buildPodcastPrompt (promptMessages text) rp),
        .generateAudio (extractScript content) ] : List Call),
        callOk env c = true
      simp [List.forall_mem_cons, callOk, exceptOk, hB, hA, hI, hR, hM, hAu]
    · simp [callOk, exceptOk, hUp]
  rcases hMe : env.uploadMetadata (mkMetadata rp audioHash) with eMe | metadataHash
  · have hrun : wrapTry (tryBody env (promptMessages text)) =
        ⟨[ vrfMsg, generatingMsg, speechMsg, ipfsMsg, failureMsg ],
         [ .newBlockchainService, .newAudioService, .newIPFSService,
           .requestRandomParameters,
           .messagesCreate (buildPodcastPrompt (promptMessages text) rp),
           .generateAudio (extractScript content), .uploadAudioFile audioPath,
           .uploadMetadata (mkMetadata rp audioHash) ],
         [ errorLogOf eMe ], some eMe, .returned false⟩ := by
      simp [tryBody, wrapTry, generatePodcastContent, hB, hA, hI, hR, hM, hAu,
        hUp, hMe]
    rw [hrun] at herr ⊢
    obtain rfl : eMe = e := by simpa using herr
    refine ⟨rfl, rfl, by dsimp only; decide, by dsimp only; decide, ?_,
      ⟨.uploadMetadata (mkMetadata rp audioHash), rfl, ?_⟩⟩
    · show ∀ c ∈ ([ .newBlockchainService, .newAudioService, .newIPFSService,
        .requestRandomParameters,
        .messagesCreate (buildPodcastPrompt (promptMessages text) rp),
        .generateAudio (extractScript content),
        .uploadAudioFile audioPath ] : List Call), callOk env c = true
      simp [List.forall_mem_cons, callOk, exceptOk, hB, hA, hI, hR, hM, hAu,
        hUp]
    · simp [callOk, exceptOk, hMe]
  rcases hT : env.updateTokenURI ("https://ipfs.io/ipfs/" ++ metadataHash)
    with eT | uT
  · have hrun : wrapTry (tryBody env (promptMessages text)) =
        ⟨[ vrfMsg, generatingMsg, speechMsg, ipfsMsg, updateMsg, failureMsg ],
         [ .newBlockchainService, .newAudioService, .newIPFSService,
           .requestRandomParameters,
           .messagesCreate (buildPodcastPrompt (promptMessages text) rp),
           .generateAudio (extractScript content), .uploadAudioFile audioPath,
           .uploadMetadata (mkMetadata rp audioHash),
           .updateTokenURI ("https://ipfs.io/ipfs/" ++ metadataHash) ],
         [ errorLogOf eT ], some eT, .returned false⟩ := by
      simp [tryBody, wrapTry, generatePodcastContent, hB, hA, hI, hR, hM, hAu,
        hUp, hMe, hT]
    rw [hrun] at herr ⊢
    obtain rfl : eT = e := by simpa using herr
    refine ⟨rfl, rfl, by dsimp only; decide, by dsimp only; decide, ?_,
      ⟨.updateTokenURI ("https://ipfs.io/ipfs/" ++ metadataHash), rfl, ?_⟩⟩
    · show ∀ c ∈ ([ .newBlockchainService, .newAudioService, .newIPFSService,
        .requestRandomParameters,
        .messagesCreate (buildPodcastPrompt (promptMessages text) rp),
        .generateAudio (extractScript content), .uploadAudioFile audioPath,
        .uploadMetadata (mkMetadata rp audioHash) ] : List Call),
        callOk env c = true
      simp [List.forall_mem_cons, callOk, exceptOk, hB, hA, hI, hR, hM, hAu,
        hUp, hMe]
    · simp [callOk, exceptOk, hT]
  rcases hS : env.callStoryProtocol audioHash metadataHash with eS | resp
  · have hrun : wrapTry (tryBody env (promptMessages text)) =
        ⟨[ vrfMsg, generatingMsg, speechMsg, ipfsMsg, updateMsg, mintMsg,
           failureMsg ],
         [ .newBlockchainService, .newAudioService, .newIPFSService,
           .requestRandomParameters,
           .messagesCreate (buildPodcastPrompt (promptMessages text) rp),
           .generateAudio (extractScript content), .uploadAudioFile audioPath,
           .uploadMetadata (mkMetadata rp audioHash),
           .updateTokenURI ("https://ipfs.io/ipfs/" ++ metadataHash),
           .callStoryProtocol audioHash metadataHash ],
         [ errorLogOf eS ], some eS, .returned false⟩ := by
      simp [tryBody, wrapTry, generatePodcastContent, hB, hA, hI, hR, hM, hAu,
        hUp, hMe, hT, hS]
    rw [hrun] at herr ⊢
    obtain rfl : eS = e := by simpa using herr
    refine ⟨rfl, rfl, by dsimp only; decide, by dsimp only; decide, ?_,
      ⟨.callStoryProtocol audioHash metadataHash, rfl, ?_⟩⟩
    · show ∀ c ∈ ([ .newBlockchainService, .newAudioService, .newIPFSService,
        .requestRandomParameters,
        .messagesCreate (buildPodcastPrompt (promptMessages text) rp),
        .generateAudio (extractScript content), .uploadAudioFile audioPath,
        .uploadMetadata (mkMetadata rp audioHash),
        .updateTokenURI ("https://ipfs.io/ipfs/" ++ metadataHash) ] :
        List Call), callOk env c = true
      simp [List.forall_mem_cons, callOk, exceptOk, hB, hA, hI, hR, hM, hAu,
        hUp, hMe, hT]
    · simp [callOk, exceptOk, hS]
  · have hrun : wrapTry (tryBody env (promptMessages text)) =
        ⟨[ vrfMsg, generatingMsg, speechMsg, ipfsMsg, updateMsg, mintMsg,
           storyMsg resp, openSeaMsg ],
         [ .newBlockchainService, .newAudioService, .newIPFSService,
           .requestRandomParameters,
           .messagesCreate (buildPodcastPrompt (promptMessages text) rp),
           .generateAudio (extractScript content), .uploadAudioFile audioPath,
           .uploadMetadata (mkMetadata rp audioHash),
           .updateTokenURI ("https://ipfs.io/ipfs/" ++ metadataHash),
           .callStoryProtocol audioHash metadataHash ],
         [], none, .returned true⟩ := by
      simp [tryBody, wrapTry, generatePodcastContent, hB, hA, hI, hR, hM, hAu,
        hUp, hMe, hT, hS]
    rw [hrun] at herr
    simp at herr

theorem c2_error_policy_witness :
    missingConfig cfgOk = false ∧
    (handler envAudioFail cfgOk textDemo none true).err = some "boom" ∧
    ((handler envAudioFail cfgOk textDemo none true).outcome =
        HandlerOutcome.returned false ∧
      (handler envAudioFail cfgOk textDemo none true).logs =
        [ errorLogOf "boom" ] ∧
      (handler envAudioFail cfgOk textDemo none true).notifs.count failureMsg
        = 1 ∧
      (handler envAudioFail cfgOk textDemo none true).notifs.getLast? =
        some failureMsg ∧
      (∀ c ∈ (handler envAudioFail cfgOk textDemo none true).calls.dropLast,
        callOk envAudioFail c = true) ∧
      (∃ cf, (handler envAudioFail cfgOk textDemo none true).calls.getLast? =
          some cf ∧ callOk envAudioFail cf = false)) :=
  ⟨rfl, rfl,
   c2_error_policy envAudioFail cfgOk textDemo none "boom" rfl rfl⟩

/-- Claim C9: invoked without a callback, the handler throws (line 33 of
clAction.ts) before the configuration check and before the try block: no
notification of any kind is emitted, no adapter is called, nothing is
logged, and the error is not normalized to the generic failure notification
or to the failure return value. -/
theorem c9_no_callback_throws (env : Env) (cfg : Config) (text : String)
    (st : Option SessionState) :
    handler env cfg text st false =
      ⟨[], [], [], none, HandlerOutcome.threw callbackRequiredMsg⟩ := rfl

/-- Claim C6: for every message batch and every random-parameters value, the
prompt built for the language-model call has the fixed instruction, topic,
duration and language strings, and carries the two inputs unchanged in
daily_messages and random_parameters; buildPodcastPrompt is a total pure
function, so building the prompt performs no IO and cannot fail. -/
theorem c6_prompt_fields (messages : List String) (rp : RandomParams) :
    (buildPodcastPrompt messages rp).instruction =
      "Generate a podcast script based on the day\u0027s messages. Create natural speech without formatting." ∧
    (buildPodcastPrompt messages rp).topic = "Ethereum Denver 2025 daily podcast" ∧
    (buildPodcastPrompt messages rp).daily_messages = messages ∧
    (buildPodcastPrompt messages rp).random_parameters = rp ∧
    (buildPodcastPrompt messages rp).duration = "20 Seconds" ∧
    (buildPodcastPrompt messages rp).language = "English" :=
  ⟨rfl, rfl, rfl, rfl, rfl, rfl⟩

/-- Claim C3: when any one of the six configuration values is absent, the
handler emits exactly the missing-config warning, invokes no adapter
operation, logs nothing, and returns false. -/
theorem c3_missing_config (env : Env) (cfg : Config) (text : String)
    (st : Option SessionState)
    (h : cfg.privateKey = none ∨ cfg.contractAddress = none ∨
      cfg.contractAddressFlow = none ∨ cfg.apiKey = none ∨
      cfg.xiApiKey = none ∨ cfg.pinataJwt = none) :
    handler env cfg text st true =
      ⟨[ missingEnvMsg ], [], [], none, HandlerOutcome.returned false⟩ := by
  have hm : missingConfig cfg = true := by
    rcases h with h | h | h | h | h | h <;> simp [missingConfig, envFalsy, h]
  simp [handler, hm]

theorem c3_missing_config_witness :
    (cfgMissing.privateKey = none ∨ cfgMissing.contractAddress = none ∨
      cfgMissing.contractAddressFlow = none ∨ cfgMissing.apiKey = none ∨
      cfgMissing.xiApiKey = none ∨ cfgMissing.pinataJwt = none) ∧
    handler envOk cfgMissing textDemo none true =
      ⟨[ missingEnvMsg ], [], [], none, HandlerOutcome.returned false⟩ :=
  ⟨Or.inl rfl, c3_missing_config envOk cfgMissing textDemo none (Or.inl rfl)⟩

/-- Claim C7: whenever the language model answers with a sequence of typed
content blocks, generatePodcastContent returns the newline-joined
concatenation of exactly the text-typed blocks, in response order, the
other blocks discarded. -/
theorem c7_script_extraction (env : Env) (messages : List String)
    (rp : RandomParams) (content : List ContentBlock)
    (h : env.messagesCreate (buildPodcastPrompt messages rp) = .ok content) :
    generatePodcastContent env messages rp =
      .ok (String.intercalate "\n" (textsOf content)) := by
  simp [generatePodcastContent, h, extractScript, filterMap_textOfBlock_eq]

theorem c7_script_extraction_witness :
    envMixed.messagesCreate (buildPodcastPrompt [ "m" ] rpDemo) =
      .ok [ ContentBlock.text "first line", ContentBlock.other "tool_use",
            ContentBlock.text "second line" ] ∧
    generatePodcastContent envMixed [ "m" ] rpDemo =
      .ok (String.intercalate "\n"
        (textsOf [ ContentBlock.text "first line", ContentBlock.other "tool_use",
                   ContentBlock.text "second line" ])) :=
  ⟨rfl, c7_script_extraction envMixed [ "m" ] rpDemo _ rfl⟩

theorem wrapTry_calls (t : TryOut) : (wrapTry t).calls = t.calls := by
  rcases t with ⟨n, c, r⟩
  cases r <;> rfl

theorem tryBody_calls_head (env : Env) (pmsgs : List String) :
    (tryBody env pmsgs).calls.head? = some Call.newBlockchainService := by
  rcases hB : env.newBlockchainService with eB | uB
  · simp [tryBody, hB]
  rcases hA : env.newAudioService with eA | uA
  · simp [tryBody, hB, hA]
  rcases hI : env.newIPFSService with eI | uI
  · simp [tryBody, hB, hA, hI]
  rcases hR : env.requestRandomParameters with eR | rp
  · simp [tryBody, hB, hA, hI, hR]
  rcases hM : generatePodcastContent env pmsgs rp with eM | script
  · simp [tryBody, hB, hA, hI, hR, hM]
  rcases hAu : env.generateAudio script with eAu | audioPath
  · simp [tryBody, hB, hA, hI, hR, hM, hAu]
  rcases hUp : env.uploadAudioFile audioPath with eUp | audioHash
  · simp [tryBody, hB, hA, hI, hR, hM, hAu, hUp]
  rcases hMe : env.uploadMetadata (mkMetadata rp audioHash) with eMe | metadataHash
  · simp [tryBody, hB, hA, hI, hR, hM, hAu, hUp, hMe]
  rcases hT : env.updateTokenURI ("https://ipfs.io/ipfs/" ++ metadataHash)
    with eT | uT
  · simp [tryBody, hB, hA, hI, hR, hM, hAu, hUp, hMe, hT]
  rcases hS : env.callStoryProtocol audioHash metadataHash with eS | resp
  · simp [tryBody, hB, hA, hI, hR, hM, hAu, hUp, hMe, hT, hS]
  · simp [tryBody, hB, hA, hI, hR, hM, hAu, hUp, hMe, hT, hS]

/-- Claim C8: every run that reaches the metadata-construction step uploads
exactly the object built by mkMetadata: the fixed name string, a description
embedding the serialized random parameters, the fixed image URL, and an
external_url embedding the audio content identifier returned by the audio
upload. -/
theorem c8_metadata (env : Env) (cfg : Config) (text : String)
    (st : Option SessionState) (rp : RandomParams) (content : List ContentBlock)
    (audioPath audioHash : String)
    (hcfg : missingConfig cfg = false)
    (hB : env.newBlockchainService = .ok ())
    (hA : env.newAudioService = .ok ())
    (hI : env.newIPFSService = .ok ())
    (hR : env.requestRandomParameters = .ok rp)
    (hM : env.messagesCreate (buildPodcastPrompt (promptMessages text) rp) =
      .ok content)
    (hAu : env.generateAudio (extractScript content) = .ok audioPath)
    (hUp : env.uploadAudioFile audioPath = .ok audioHash) :
    Call.uploadMetadata (mkMetadata rp audioHash) ∈
      (handler env cfg text st true).calls ∧
    (mkMetadata rp audioHash).name = "BuffiCast Podcast" ∧
    containsStr (mkMetadata rp audioHash).description
      (stringifyRandomParams rp) = true ∧
    (mkMetadata rp audioHash).image =
      "https://ipfs.io/ipfs/bafkreifqzkq7tzppc22fa2f52sg2cruvomne2tp34yhdnx3ub2xw24b52m" ∧
    containsStr (mkMetadata rp audioHash).external_url audioHash = true := by
  refine ⟨?_, rfl, ?_, rfl, ?_⟩
  · have hmain : handler env cfg text st true =
        wrapTry (tryBody env (promptMessages text)) := by
      simp [handler, hcfg]
    rw [hmain, wrapTry_calls]
    rcases hMe : env.uploadMetadata (mkMetadata rp audioHash)
      with eMe | metadataHash
    · simp [tryBody, generatePodcastContent, hB, hA, hI, hR, hM, hAu, hUp, hMe]
    rcases hT : env.updateTokenURI ("https://ipfs.io/ipfs/" ++ metadataHash)
      with eT | uT
    · simp [tryBody, generatePodcastContent, hB, hA, hI, hR, hM, hAu, hUp, hMe,
        hT]
    rcases hS : env.callStoryProtocol audioHash metadataHash with eS | resp
    · simp [tryBody, generatePodcastContent, hB, hA, hI, hR, hM, hAu, hUp, hMe,
        hT, hS]
    · simp [tryBody, generatePodcastContent, hB, hA, hI, hR, hM, hAu, hUp, hMe,
        hT, hS]
  · show containsStr
      ("Podcast generated by BuffiCast with parameters: " ++
        stringifyRandomParams rp) (stringifyRandomParams rp) = true
    rw [containsStr, data_append]
    exact hasSeg_tail _ _
  · show containsStr ("https://ipfs.io/ipfs/" ++ audioHash) audioHash = true
    rw [containsStr, data_append]
    exact hasSeg_tail _ _

theorem c8_metadata_witness :
    missingConfig cfgOk = false ∧
    envOk.newBlockchainService = .ok () ∧
    envOk.newAudioService = .ok () ∧
    envOk.newIPFSService = .ok () ∧
    envOk.requestRandomParameters = .ok rpDemo ∧
    envOk.messagesCreate (buildPodcastPrompt (promptMessages textDemo) rpDemo) =
      .ok [ ContentBlock.text "hello listeners" ] ∧
    envOk.generateAudio (extractScript [ ContentBlock.text "hello listeners" ]) =
      .ok "podcast.mp3" ∧
    envOk.uploadAudioFile "podcast.mp3" = .ok "QmAudio" ∧
    (Call.uploadMetadata (mkMetadata rpDemo "QmAudio") ∈
      (handler envOk cfgOk textDemo none true).calls ∧
     (mkMetadata rpDemo "QmAudio").name = "BuffiCast Podcast" ∧
     containsStr (mkMetadata rpDemo "QmAudio").description
       (stringifyRandomParams rpDemo) = true ∧
     (mkMetadata rpDemo "QmAudio").image =
       "https://ipfs.io/ipfs/bafkreifqzkq7tzppc22fa2f52sg2cruvomne2tp34yhdnx3ub2xw24b52m" ∧
     containsStr (mkMetadata rpDemo "QmAudio").external_url "QmAudio" = true) :=
  ⟨rfl, rfl, rfl, rfl, rfl, rfl, rfl, rfl,
   c8_metadata envOk cfgOk textDemo none rpDemo
     [ ContentBlock.text "hello listeners" ] "podcast.mp3" "QmAudio"
     rfl rfl rfl rfl rfl rfl rfl rfl⟩

/-- Claim C5 counterexample: validation does attach the extracted batch to the
session state, but the handler does not read that batch back.  In a concrete
successful run whose session state holds the different batch planted, the
language-model call recorded by the handler carries the batch re-extracted
from the inbound text, not the batch held in the shared state. -/
theorem c5_counterexample :
    validate textDemo (some ⟨none⟩) = (true, some ⟨some [ "real" ]⟩) ∧
    stPlanted.daily_messages = some [ "planted" ] ∧
    (handler envOk cfgOk textDemo (some stPlanted) true).calls =
      [ .newBlockchainService, .newAudioService, .newIPFSService,
        .requestRandomParameters,
        .messagesCreate (buildPodcastPrompt [ "real" ] rpDemo),
        .generateAudio "hello listeners", .uploadAudioFile "podcast.mp3",
        .uploadMetadata (mkMetadata rpDemo "QmAudio"),
        .updateTokenURI "https://ipfs.io/ipfs/QmMeta",
        .callStoryProtocol "QmAudio" "QmMeta" ] ∧
    (buildPodcastPrompt [ "real" ] rpDemo).daily_messages = [ "real" ] ∧
    ([ "real" ] : List String) ≠ [ "planted" ] := by
  refine ⟨?_, ?_, ?_, ?_, ?_⟩ <;> decide

/-- Claim C5 (amended): when validation succeeds and a state object is
present, validation attaches the extracted batch to the session state before
the handler step runs; the handler, however, never reads the batch back from
the shared state: its result is independent of the session-state argument,
and the batch it uses for the prompt is re-extracted from the inbound
text. -/
theorem c5_state_attach (text : String) (st : SessionState)
    (msgs : List String) (h : extractMessages text = some msgs) :
    validate text (some st) = (true, some ⟨some msgs⟩) ∧
    (∀ env cfg st1 st2 cb,
      handler env cfg text st1 cb = handler env cfg text st2 cb) ∧
    promptMessages text = msgs := by
  refine ⟨?_, fun env cfg st1 st2 cb => rfl, ?_⟩
  · cases st
    simp [validate, h]
  · simp [promptMessages, h]

theorem c5_state_attach_witness :
    extractMessages textDemo = some [ "real" ] ∧
    (validate textDemo (some ⟨none⟩) = (true, some ⟨some [ "real" ]⟩) ∧
     (∀ env cfg st1 st2 cb,
       handler env cfg textDemo st1 cb = handler env cfg textDemo st2 cb) ∧
     promptMessages textDemo = [ "real" ]) :=
  ⟨by decide, c5_state_attach textDemo ⟨none⟩ [ "real" ] (by decide)⟩

/-- Claim C10: the batch used for the prompt is re-extracted from the inbound
text, not read from session state (the handler result is independent of the
state argument), and when the re-extraction yields no messages the handler
does not abort: it substitutes the single default message and runs the try
block with it, starting with service construction. -/
theorem c10_default_messages (env : Env) (cfg : Config) (text : String)
    (st : Option SessionState)
    (h : extractMessages text = none)
    (hcfg : missingConfig cfg = false) :
    promptMessages text = [ "Awesome messages!" ] ∧
    handler env cfg text st true =
      wrapTry (tryBody env [ "Awesome messages!" ]) ∧
    (∀ st2, handler env cfg text st true = handler env cfg text st2 true) ∧
    (handler env cfg text st true).calls.head? =
      some Call.newBlockchainService := by
  have hpm : promptMessages text = [ "Awesome messages!" ] := by
    simp [promptMessages, h, defaultMessages]
  have hmain : handler env cfg text st true =
      wrapTry (tryBody env (promptMessages text)) := by
    simp [handler, hcfg]
  refine ⟨hpm, ?_, fun st2 => rfl, ?_⟩
  · rw [hmain, hpm]
  · rw [hmain, wrapTry_calls]
    exact tryBody_calls_head env (promptMessages text)

theorem c10_default_messages_witness :
    extractMessages textNoQuotes = none ∧
    missingConfig cfgOk = false ∧
    (promptMessages textNoQuotes = [ "Awesome messages!" ] ∧
     handler envOk cfgOk textNoQuotes none true =
       wrapTry (tryBody envOk [ "Awesome messages!" ]) ∧
     (∀ st2,
       handler envOk cfgOk textNoQuotes none true =
         handler envOk cfgOk textNoQuotes st2 true) ∧
     (handler envOk cfgOk textNoQuotes none true).calls.head? =
       some Call.newBlockchainService) :=
  ⟨by decide, rfl,
   c10_default_messages envOk cfgOk textNoQuotes none (by decide) rfl⟩

end BuffiCast
